import Mathlib

/-!
# Shallow embedding of AntRoit (src/AntRoit/jni/AntRoit.cpp)

This file embeds the native-library demo as pure Lean definitions and proves
properties of the embedding.

Modelling conventions:
* Machine `float`/`double` values are modelled as exact rationals (`ℚ`);
  float rounding is not modelled.  `jint`/`jlong` are modelled as `ℤ`,
  with the implicit `jlong → int` narrowing at the `step` bridge modelled
  by `Int.bmod · (2^32)`.
* Angles: `glm::radians` multiplies by `π/180`, which has no rational value,
  so the embedding stores every angle as the degree value that the code
  passes to `glm::radians`; no claim depends on the numeric radian value.
* OpenGL is a command sink: each GL call that carries data is recorded as a
  `GlCmd` in a log; GL queries (shader handles, compile/link status) are
  inputs, collected in a `GlOracle`.
* Box2D is an external library.  The world is modelled by its gravity
  vector, its body list and a log of `Step` calls; `b2World::Step` advances
  the bodies by an oracle function (the solver is external) and, as in
  Box2D, touches neither the gravity vector nor the step log of earlier
  calls.  `std::uniform_real_distribution<float>(a,b)(generator)` is
  modelled as `a + (b-a)·u` where `u` is the next value of an oracle
  stream `ρ : ℕ → ℚ`.
-/

/-- `static const float Scale = 16.0f;` -/
def Scale : ℚ := 16

/-- `float worldToBox2D(float f) { return f / Scale; }` -/
def worldToBox2D (f : ℚ) : ℚ := f / Scale

/-- `b2Vec2 worldToBox2D(float x, float y)` -/
def worldToBox2Dxy (x y : ℚ) : ℚ × ℚ := (x / Scale, y / Scale)

/-- `b2Vec2 worldToBox2D(glm::vec2 vec)` -/
def worldToBox2Dvec (v : ℚ × ℚ) : ℚ × ℚ := (v.1 / Scale, v.2 / Scale)

/-- `float box2DToWorld(float f) { return f * Scale; }` -/
def box2DToWorld (f : ℚ) : ℚ := f * Scale

/-- `glm::vec2 box2DToWorld(float x, float y)` -/
def box2DToWorldxy (x y : ℚ) : ℚ × ℚ := (x * Scale, y * Scale)

/-- `glm::vec2 box2DToWorld(b2Vec2 vec)` -/
def box2DToWorldvec (v : ℚ × ℚ) : ℚ × ℚ := (v.1 * Scale, v.2 * Scale)

/-- Truncation of a C `float` towards zero on conversion to `int`
(used by `tWidth = (width > height) ? height / 5.0f : width / 5.0f;`). -/
def truncToInt (q : ℚ) : ℤ := q.num.tdiv q.den

/-- `std::uniform_real_distribution<float>(a, b)(generator)`, with the raw
generator output abstracted as a unit draw `u`. -/
def randomFloat (a b u : ℚ) : ℚ := a + (b - a) * u

/-- Box2D `b2BodyType` (`b2_staticBody`, `b2_kinematicBody`, `b2_dynamicBody`). -/
inductive BodyType where
  | staticBody
  | kinematicBody
  | dynamicBody
deriving Repr, DecidableEq

/-- A Box2D body as the demo configures it: identity, type, position
(in Box2D units), angle (stored in degrees, see header note), gravity
scale and the fixture's density and friction. -/
structure B2Body where
  id : ℕ
  type : BodyType
  pos : ℚ × ℚ
  angleDeg : ℚ
  gravityScale : ℚ
  density : ℚ
  friction : ℚ
deriving Repr, DecidableEq

instance : Inhabited B2Body :=
  ⟨{ id := 0, type := .staticBody, pos := (0, 0), angleDeg := 0,
     gravityScale := 1, density := 1, friction := 1/5 }⟩

/-- The Box2D world: gravity vector, live bodies, fresh-id counter, and the
log of `Step(dt, velocityIterations, positionIterations)` calls made so far. -/
structure B2World where
  gravity : ℚ × ℚ
  bodies : List B2Body
  nextId : ℕ
  stepCalls : List (ℚ × ℕ × ℕ)
deriving Repr, DecidableEq

/-- `b2World::CreateBody` followed by the fixture creation and the
`SetTransform(position, rotation)` call of the `Triangle`/`Rectangle`
constructors: allocates a fresh body with gravity scale 1 (the Box2D
default) and returns its id. -/
def B2World.createBody (w : B2World) (t : BodyType) (pos : ℚ × ℚ)
    (angleDeg density friction : ℚ) : ℕ × B2World :=
  (w.nextId,
   { w with
      bodies := w.bodies ++
        [{ id := w.nextId, type := t, pos := pos, angleDeg := angleDeg,
           gravityScale := 1, density := density, friction := friction }],
      nextId := w.nextId + 1 })

/-- `b2World::DestroyBody`, by body id. -/
def B2World.destroyBody (w : B2World) (i : ℕ) : B2World :=
  { w with bodies := w.bodies.filter (fun b => b.id ≠ i) }

/-- `b2World::Step(dt, velocityIterations, positionIterations)`: the solver
(external library) advances the bodies — abstracted by the oracle `σ`,
indexed by the number of `Step` calls made so far — and the call is
logged.  As in Box2D, `Step` does not modify the gravity vector. -/
def B2World.step (w : B2World) (σ : ℕ → List B2Body → List B2Body)
    (dt : ℚ) (velIters posIters : ℕ) : B2World :=
  { w with
     bodies := σ w.stepCalls.length w.bodies,
     stepCalls := w.stepCalls ++ [(dt, velIters, posIters)] }

/-- `w.findBody i` looks a live body up by id (a `b2Body*` dereference). -/
def B2World.findBody (w : B2World) (i : ℕ) : Option B2Body :=
  w.bodies.find? (fun b => b.id = i)

/-- `glm::vec4` used as an RGBA color. -/
structure Color4 where
  r : ℚ
  g : ℚ
  b : ℚ
  a : ℚ
deriving Repr, DecidableEq

/-- Which concrete `Shape` subclass an element of `shapes` is. -/
inductive ShapeKind where
  | triangle
  | rectangle
deriving Repr, DecidableEq

/-- An element of `std::vector<Shape*> shapes`: the fields the
`Triangle`/`Rectangle` constructors store (the GL vertex buffer is
determined by `kind`, `width` and `height`; `numVertices` is the count
passed to `glDrawArrays`). -/
structure Shape where
  kind : ShapeKind
  numVertices : ℕ
  color : Color4
  bodyId : ℕ
  dynamic : Bool
  x : ℚ
  y : ℚ
  width : ℚ
  height : ℚ
  rotationDeg : ℚ
deriving Repr, DecidableEq

/-- GLenum constants used by the demo. -/
def GL_VERSION : ℕ := 0x1F02
def GL_VENDOR : ℕ := 0x1F00
def GL_RENDERER : ℕ := 0x1F01
def GL_EXTENSIONS : ℕ := 0x1F03
def GL_DEPTH_TEST : ℕ := 0x0B71
def GL_BLEND : ℕ := 0x0BE2
def GL_SRC_ALPHA : ℕ := 0x0302
def GL_ONE_MINUS_SRC_ALPHA : ℕ := 0x0303
def GL_COLOR_BUFFER_BIT : ℕ := 0x4000
def GL_DEPTH_BUFFER_BIT : ℕ := 0x100

/-- Data-carrying GL calls, recorded in issue order.  `drawShape` stands for
the body of `Shape::draw` (buffer bind, vertex attribute, the two uniform
uploads and `glDrawArrays`), carrying the data those calls upload. -/
inductive GlCmd where
  | viewport (x y w h : ℤ)
  | clearColor (r g b a : ℚ)
  | enable (cap : ℕ)
  | blendFunc (src dst : ℕ)
  | clear (mask : ℕ)
  | useProgram (p : ℕ)
  | drawShape (numVertices : ℕ) (color : Color4) (pos : ℚ × ℚ) (angleDeg : ℚ)
deriving Repr, DecidableEq

/-- Android-log messages the demo emits. -/
inductive LogEntry where
  | glString (name : ℕ)
  | setupGraphics (w h : ℤ)
  | couldNotCreateProgram
  | touchMsg (x y : ℚ)
deriving Repr, DecidableEq

/-- The mutable globals of AntRoit.cpp. -/
structure AppState where
  program : ℕ
  projectionLeft : ℚ
  projectionRight : ℚ
  projectionBottom : ℚ
  projectionTop : ℚ
  world : B2World
  shapes : List Shape
  screenWidth : ℤ
  screenHeight : ℤ
  tWidth : ℤ
  tHeight : ℤ
  currentTime : ℚ
  accumulator : ℚ
  spawnTime : ℚ
  backgroundFun : ℚ
  clearR : ℚ
  clearG : ℚ
  clearB : ℚ
  rngIdx : ℕ
  glLog : List GlCmd
  log : List LogEntry
deriving Repr, DecidableEq

/-- `float step = 1.0f / 60.0f;` (never reassigned). -/
def step : ℚ := 1 / 60

/-- The globals' load-time values: zero-initialized handles and timers,
`b2World world(b2Vec2(0.0f, worldToBox2D(128.0f)))`, and the initial
clear-color components `0.2f, 0.3f, 0.5f`. -/
def initialAppState : AppState :=
  { program := 0
    projectionLeft := 0, projectionRight := 0
    projectionBottom := 0, projectionTop := 0
    world := { gravity := (0, worldToBox2D 128), bodies := [], nextId := 0,
               stepCalls := [] }
    shapes := []
    screenWidth := 0, screenHeight := 0, tWidth := 0, tHeight := 0
    currentTime := 0, accumulator := 0, spawnTime := 0, backgroundFun := 0
    clearR := 1/5, clearG := 3/10, clearB := 1/2
    rngIdx := 0, glLog := [], log := [] }

/-- GL query results consumed by `loadShader`/`createProgram`:
`glCreateShader`/`glCreateProgram` handles, `GL_COMPILE_STATUS`,
`GL_INFO_LOG_LENGTH` and `GL_LINK_STATUS`. -/
structure GlOracle where
  vsHandle : ℕ
  vsCompiled : Bool
  vsInfoLen : ℕ
  fsHandle : ℕ
  fsCompiled : Bool
  fsInfoLen : ℕ
  progHandle : ℕ
  linkOk : Bool
deriving Repr, DecidableEq

/-- `GLuint loadShader(GLenum shaderType, const char* pSource)`: returns 0
when `glCreateShader` fails, the handle when compilation succeeds, 0 when
compilation fails with a nonempty info log — and (as in the source, where
the deletion is inside `if (infoLen)`) the still-unusable handle when
compilation fails with an empty info log. -/
def loadShader (handle : ℕ) (compiled : Bool) (infoLen : ℕ) : ℕ :=
  if handle = 0 then 0
  else if compiled then handle
  else if infoLen ≠ 0 then 0
  else handle

/-- `GLuint createProgram(const char*, const char*)`. -/
def createProgram (o : GlOracle) : ℕ :=
  let vs := loadShader o.vsHandle o.vsCompiled o.vsInfoLen
  if vs = 0 then 0
  else
    let fs := loadShader o.fsHandle o.fsCompiled o.fsInfoLen
    if fs = 0 then 0
    else if o.progHandle = 0 then 0
    else if o.linkOk then o.progHandle
    else 0

/-- The `Triangle` constructor: dynamic or static body at
`worldToBox2D(x, y)`, a fixture with friction 1 and density 1, rotation
set by `SetTransform`, and a 3-vertex buffer. -/
def mkTriangle (x y width height rotationDeg : ℚ) (color : Color4)
    (dynamic : Bool) (w : B2World) : Shape × B2World :=
  let btype := if dynamic then BodyType.dynamicBody else BodyType.staticBody
  let bw := w.createBody btype (worldToBox2Dxy x y) rotationDeg 1 1
  ({ kind := .triangle, numVertices := 3, color := color, bodyId := bw.1,
     dynamic := dynamic, x := x, y := y, width := width, height := height,
     rotationDeg := rotationDeg }, bw.2)

/-- The `Rectangle` constructor: dynamic or static body at
`worldToBox2D(x, y)`, a fixture with density 1 (friction left at the Box2D
default 0.2), rotation set by `SetTransform`, and a 6-vertex buffer. -/
def mkRectangle (x y width height rotationDeg : ℚ) (color : Color4)
    (dynamic : Bool) (w : B2World) : Shape × B2World :=
  let btype := if dynamic then BodyType.dynamicBody else BodyType.staticBody
  let bw := w.createBody btype (worldToBox2Dxy x y) rotationDeg 1 (1/5)
  ({ kind := .rectangle, numVertices := 6, color := color, bodyId := bw.1,
     dynamic := dynamic, x := x, y := y, width := width, height := height,
     rotationDeg := rotationDeg }, bw.2)

/-- `shapes.push_back(new Triangle(...))`. -/
def pushTriangle (x y width height rotationDeg : ℚ) (color : Color4)
    (dynamic : Bool) (s : AppState) : AppState :=
  let sw := mkTriangle x y width height rotationDeg color dynamic s.world
  { s with shapes := s.shapes ++ [sw.1], world := sw.2 }

/-- `shapes.push_back(new Rectangle(...))`. -/
def pushRectangle (x y width height rotationDeg : ℚ) (color : Color4)
    (dynamic : Bool) (s : AppState) : AppState :=
  let sw := mkRectangle x y width height rotationDeg color dynamic s.world
  { s with shapes := s.shapes ++ [sw.1], world := sw.2 }

/-- `void createShape()`: a randomly sized, placed and colored dynamic
`Triangle` or `Rectangle` is appended to `shapes`.  The ten
`randomFloat` draws consume stream positions `rngIdx .. rngIdx+9` in
source order. -/
def createShape (ρ : ℕ → ℚ) (s : AppState) : AppState :=
  let tW : ℚ := (s.tWidth : ℚ)
  let tH : ℚ := (s.tHeight : ℚ)
  let sW : ℚ := (s.screenWidth : ℚ)
  let sH : ℚ := (s.screenHeight : ℚ)
  let i := s.rngIdx
  let w := randomFloat (tW / 5) tW (ρ i)
  let h := randomFloat (tH / 5) tH (ρ (i + 1))
  let x := randomFloat (tW / 8 + w) (sW - tW / 4 - w) (ρ (i + 2))
  let y := randomFloat (tH / 8 + h) (sH - tH / 4 - h) (ρ (i + 3))
  let r := randomFloat 0 1 (ρ (i + 4))
  let g := randomFloat 0 1 (ρ (i + 5))
  let b := randomFloat 0 1 (ρ (i + 6))
  let a := randomFloat 0 1 (ρ (i + 7))
  let angle := randomFloat 0 360 (ρ (i + 8))
  let s1 := { s with rngIdx := i + 10 }
  if randomFloat 0 1 (ρ (i + 9)) > 49/100 then
    pushTriangle x y w h angle ⟨r, g, b, a⟩ true s1
  else
    pushRectangle x y w h angle ⟨r, g, b, a⟩ true s1

/-- `void clearShapes()`: every `Shape` is deleted (its destructor calls
`world.DestroyBody`) and the vector is cleared. -/
def clearShapes (s : AppState) : AppState :=
  { s with
     world := s.shapes.foldl (fun w sh => w.destroyBody sh.bodyId) s.world,
     shapes := [] }

/-- The border thickness `tWidth = (width > height) ? height / 5.0f
: width / 5.0f;` — a float quotient truncated by the `int` assignment. -/
def tWidthOf (width height : ℤ) : ℤ :=
  if width > height then truncToInt ((height : ℚ) / 5)
  else truncToInt ((width : ℚ) / 5)

/-- `float createShapes(int width, int height)`: sets `tWidth = tHeight`
and pushes the four static red border rectangles (top, bottom, left,
right). -/
def createShapes (width height : ℤ) (s : AppState) : AppState :=
  let tW := tWidthOf width height
  let tH := tW
  let red : Color4 := ⟨1, 0, 0, 1⟩
  let s1 := { s with tWidth := tW, tHeight := tH }
  let s2 := pushRectangle ((width : ℚ) / 2) ((tH : ℚ) / 8)
              (width : ℚ) ((tH : ℚ) / 4) 0 red false s1
  let s3 := pushRectangle ((width : ℚ) / 2) ((height : ℚ) - (tH : ℚ) / 8)
              (width : ℚ) ((tH : ℚ) / 4) 0 red false s2
  let s4 := pushRectangle ((tW : ℚ) / 8) ((height : ℚ) / 2)
              ((tW : ℚ) / 4) (height : ℚ) 0 red false s3
  pushRectangle ((width : ℚ) - (tW : ℚ) / 8) ((height : ℚ) / 2)
    ((tW : ℚ) / 4) (height : ℚ) 0 red false s4

/-- `void initGraphics(int width, int height)`: clear the old shapes,
store the screen size, log the GL strings, create the shader program;
on failure log an error and return early, otherwise set the viewport,
clear color, depth test, blending and the orthographic projection
`glm::ortho(0, width, height, 0)` and create the border shapes. -/
def initGraphics (o : GlOracle) (width height : ℤ) (s : AppState) : AppState :=
  let s1 := clearShapes s
  let s2 := { s1 with
                screenWidth := width, screenHeight := height,
                log := s1.log ++
                  [LogEntry.glString GL_VERSION, LogEntry.glString GL_VENDOR,
                   LogEntry.glString GL_RENDERER, LogEntry.glString GL_EXTENSIONS,
                   LogEntry.setupGraphics width height] }
  let prog := createProgram o
  let s3 := { s2 with program := prog }
  if prog = 0 then
    { s3 with log := s3.log ++ [LogEntry.couldNotCreateProgram] }
  else
    let s4 := { s3 with
                  glLog := s3.glLog ++
                    [GlCmd.viewport 0 0 width height,
                     GlCmd.clearColor (1/10) (1/10) (4/5) 1,
                     GlCmd.enable GL_DEPTH_TEST,
                     GlCmd.enable GL_BLEND,
                     GlCmd.blendFunc GL_SRC_ALPHA GL_ONE_MINUS_SRC_ALPHA],
                  projectionLeft := 0, projectionRight := (width : ℚ),
                  projectionBottom := (height : ℚ), projectionTop := 0 }
    createShapes width height s4

/-- `if (x > 1.0f) x = 1.0f; else if (x < 0.0f) x = 0.0f;` -/
def clamp01 (x : ℚ) : ℚ := if x > 1 then 1 else if x < 0 then 0 else x

/-- One iteration of the `while (accumulator >= step)` loop: perturb and
clamp the clear-color components (three draws), issue `glClearColor`,
run `world.Step(step, 8, 3)`, subtract one step from the accumulator,
and spawn a shape when more than two seconds have passed since the last
spawn. -/
def updateBody (ρ : ℕ → ℚ) (σ : ℕ → List B2Body → List B2Body)
    (newTime : ℚ) (s : AppState) : AppState :=
  let i := s.rngIdx
  let cR := clamp01 (s.clearR + randomFloat (-(1/1000)) (1/1000) (ρ i))
  let cG := clamp01 (s.clearG + randomFloat (-(1/1000)) (1/1000) (ρ (i + 1)))
  let cB := clamp01 (s.clearB + randomFloat (-(1/1000)) (1/1000) (ρ (i + 2)))
  let s1 := { s with
                clearR := cR, clearG := cG, clearB := cB, rngIdx := i + 3,
                glLog := s.glLog ++ [GlCmd.clearColor cR cG cB 1],
                world := s.world.step σ step 8 3,
                accumulator := s.accumulator - step }
  if newTime - s1.spawnTime > 2 then
    { createShape ρ s1 with spawnTime := newTime }
  else s1

/-- The `while (accumulator >= step)` loop of `update`. -/
def updateLoop (ρ : ℕ → ℚ) (σ : ℕ → List B2Body → List B2Body)
    (newTime : ℚ) (s : AppState) : AppState :=
  if h : step ≤ s.accumulator then
    updateLoop ρ σ newTime (updateBody ρ σ newTime s)
  else s
termination_by (⌈s.accumulator * 60⌉).toNat
decreasing_by
  have hacc : (updateBody ρ σ newTime s).accumulator = s.accumulator - step := by
    simp only [updateBody, createShape, pushTriangle, pushRectangle]
    split
    · split <;> rfl
    · rfl
  rw [hacc]
  have h1 : (1 : ℚ) ≤ s.accumulator * 60 := by
    simp only [step] at h
    nlinarith
  have h2 : (1 : ℤ) ≤ ⌈s.accumulator * 60⌉ := by
    exact_mod_cast Int.le_ceil_iff.mpr (by push_cast; linarith)
  have h3 : (s.accumulator - step) * 60 = s.accumulator * 60 - 1 := by
    simp only [step]; ring
  rw [h3, Int.ceil_sub_one]
  omega

/-- `void update(int time)`: convert to seconds, clamp the frame delta to
0.25 s, add it to the accumulator and run the fixed-timestep loop. -/
def update (ρ : ℕ → ℚ) (σ : ℕ → List B2Body → List B2Body)
    (time : ℤ) (s : AppState) : AppState :=
  let newTime : ℚ := (time : ℚ) / 1000
  let deltaTime := min (newTime - s.currentTime) (1/4)
  let s1 := { s with currentTime := newTime,
                     accumulator := s.accumulator + deltaTime }
  updateLoop ρ σ newTime s1

/-- `void touch(float x, float y)`: the body is a single `LOGI` call
(all shape-spawning code is commented out). -/
def touch (x y : ℚ) (s : AppState) : AppState :=
  { s with log := s.log ++ [LogEntry.touchMsg x y] }

/-- `Shape::draw()`: the draw call for one shape, reading the body's
position (converted by `box2DToWorld`) and angle through its id. -/
def shapeDrawCmd (w : B2World) (sh : Shape) : GlCmd :=
  let b := (w.findBody sh.bodyId).getD default
  GlCmd.drawShape sh.numVertices sh.color (box2DToWorldvec b.pos) b.angleDeg

/-- The `for (auto shape : shapes) shape->draw();` loop. -/
def drawShapesFold (shapes : List Shape) (s : AppState) : AppState :=
  shapes.foldl
    (fun st sh => { st with glLog := st.glLog ++ [shapeDrawCmd st.world sh] }) s

/-- `void draw()`: clear the color and depth buffers, select the program,
draw every shape in list order, deselect the program. -/
def draw (s : AppState) : AppState :=
  let s1 := { s with
                glLog := s.glLog ++
                  [GlCmd.clear (GL_DEPTH_BUFFER_BIT ||| GL_COLOR_BUFFER_BIT),
                   GlCmd.useProgram s.program] }
  let s2 := drawShapesFold s1.shapes s1
  { s2 with glLog := s2.glLog ++ [GlCmd.useProgram 0] }

/-- The implicit `jlong → int` narrowing at the `step` bridge. -/
def jintOfJlong (t : ℤ) : ℤ := Int.bmod t (2 ^ 32)

/-- `Java_fi_enko_antroit_AntRoitLib_init`. -/
def initBridge (o : GlOracle) (width height : ℤ) (s : AppState) : AppState :=
  initGraphics o width height s

/-- `Java_fi_enko_antroit_AntRoitLib_step`: `update(time); draw();`
(the `jlong` argument is narrowed to `int` at the call). -/
def stepBridge (ρ : ℕ → ℚ) (σ : ℕ → List B2Body → List B2Body)
    (time : ℤ) (s : AppState) : AppState :=
  draw (update ρ σ (jintOfJlong time) s)

/-- `Java_fi_enko_antroit_AntRoitLib_touch`. -/
def touchBridge (x y : ℚ) (s : AppState) : AppState :=
  touch x y s

/-- The shapes the demo renders: a 3-vertex triangle or a 6-vertex
rectangle. -/
def renderableShape (sh : Shape) : Prop :=
  (sh.kind = ShapeKind.triangle ∧ sh.numVertices = 3) ∨
  (sh.kind = ShapeKind.rectangle ∧ sh.numVertices = 6)

instance (sh : Shape) : Decidable (renderableShape sh) := by
  unfold renderableShape; infer_instance

/-! ## Helper lemmas -/

theorem clamp01_mem (x : ℚ) : 0 ≤ clamp01 x ∧ clamp01 x ≤ 1 := by
  unfold clamp01
  split_ifs <;> constructor <;> linarith

theorem createShape_accumulator (ρ : ℕ → ℚ) (s : AppState) :
    (createShape ρ s).accumulator = s.accumulator := by
  simp only [createShape, pushTriangle, pushRectangle, mkTriangle, mkRectangle,
    B2World.createBody]
  split <;> rfl

theorem createShape_clearR (ρ : ℕ → ℚ) (s : AppState) :
    (createShape ρ s).clearR = s.clearR := by
  simp only [createShape, pushTriangle, pushRectangle, mkTriangle, mkRectangle,
    B2World.createBody]
  split <;> rfl

theorem createShape_clearG (ρ : ℕ → ℚ) (s : AppState) :
    (createShape ρ s).clearG = s.clearG := by
  simp only [createShape, pushTriangle, pushRectangle, mkTriangle, mkRectangle,
    B2World.createBody]
  split <;> rfl

theorem createShape_clearB (ρ : ℕ → ℚ) (s : AppState) :
    (createShape ρ s).clearB = s.clearB := by
  simp only [createShape, pushTriangle, pushRectangle, mkTriangle, mkRectangle,
    B2World.createBody]
  split <;> rfl

theorem createShape_gravity (ρ : ℕ → ℚ) (s : AppState) :
    (createShape ρ s).world.gravity = s.world.gravity := by
  simp only [createShape, pushTriangle, pushRectangle, mkTriangle, mkRectangle,
    B2World.createBody]
  split <;> rfl

theorem createShape_stepCalls (ρ : ℕ → ℚ) (s : AppState) :
    (createShape ρ s).world.stepCalls = s.world.stepCalls := by
  simp only [createShape, pushTriangle, pushRectangle, mkTriangle, mkRectangle,
    B2World.createBody]
  split <;> rfl

theorem createShape_shapes (ρ : ℕ → ℚ) (s : AppState) :
    ∃ sh, (createShape ρ s).shapes = s.shapes ++ [sh] ∧
      sh.dynamic = true ∧ renderableShape sh := by
  simp only [createShape, pushTriangle, pushRectangle, mkTriangle, mkRectangle,
    B2World.createBody]
  split
  · exact ⟨_, rfl, rfl, Or.inl ⟨rfl, rfl⟩⟩
  · exact ⟨_, rfl, rfl, Or.inr ⟨rfl, rfl⟩⟩

theorem updateBody_accumulator (ρ : ℕ → ℚ) (σ : ℕ → List B2Body → List B2Body)
    (nt : ℚ) (s : AppState) :
    (updateBody ρ σ nt s).accumulator = s.accumulator - step := by
  simp only [updateBody]
  split <;> simp [createShape_accumulator]

theorem updateBody_stepCalls (ρ : ℕ → ℚ) (σ : ℕ → List B2Body → List B2Body)
    (nt : ℚ) (s : AppState) :
    (updateBody ρ σ nt s).world.stepCalls = s.world.stepCalls ++ [(step, 8, 3)] := by
  simp only [updateBody]
  split <;> simp [createShape_stepCalls, B2World.step]

theorem updateBody_gravity (ρ : ℕ → ℚ) (σ : ℕ → List B2Body → List B2Body)
    (nt : ℚ) (s : AppState) :
    (updateBody ρ σ nt s).world.gravity = s.world.gravity := by
  simp only [updateBody]
  split <;> simp [createShape_gravity, B2World.step]

theorem updateBody_clearR (ρ : ℕ → ℚ) (σ : ℕ → List B2Body → List B2Body)
    (nt : ℚ) (s : AppState) :
    0 ≤ (updateBody ρ σ nt s).clearR ∧ (updateBody ρ σ nt s).clearR ≤ 1 := by
  simp only [updateBody]
  split <;> simp [createShape_clearR] <;> exact clamp01_mem _

theorem updateBody_clearG (ρ : ℕ → ℚ) (σ : ℕ → List B2Body → List B2Body)
    (nt : ℚ) (s : AppState) :
    0 ≤ (updateBody ρ σ nt s).clearG ∧ (updateBody ρ σ nt s).clearG ≤ 1 := by
  simp only [updateBody]
  split <;> simp [createShape_clearG] <;> exact clamp01_mem _

theorem updateBody_clearB (ρ : ℕ → ℚ) (σ : ℕ → List B2Body → List B2Body)
    (nt : ℚ) (s : AppState) :
    0 ≤ (updateBody ρ σ nt s).clearB ∧ (updateBody ρ σ nt s).clearB ≤ 1 := by
  simp only [updateBody]
  split <;> simp [createShape_clearB] <;> exact clamp01_mem _

theorem updateBody_shapes (ρ : ℕ → ℚ) (σ : ℕ → List B2Body → List B2Body)
    (nt : ℚ) (s : AppState) :
    ∃ new, (updateBody ρ σ nt s).shapes = s.shapes ++ new ∧
      ∀ sh ∈ new, sh.dynamic = true ∧ renderableShape sh := by
  simp only [updateBody]
  split
  · obtain ⟨sh, hsh, hdyn, hren⟩ := createShape_shapes ρ _
    refine ⟨[sh], by simpa using hsh, ?_⟩
    intro sh' hsh'
    rw [List.mem_singleton] at hsh'
    subst hsh'
    exact ⟨hdyn, hren⟩
  · exact ⟨[], by simp, by simp⟩

theorem updateLoop_spec (ρ : ℕ → ℚ) (σ : ℕ → List B2Body → List B2Body)
    (nt : ℚ) (s : AppState) :
    ∃ n : ℕ,
      (updateLoop ρ σ nt s).accumulator = s.accumulator - n * step ∧
      (updateLoop ρ σ nt s).world.stepCalls =
        s.world.stepCalls ++ List.replicate n (step, 8, 3) ∧
      (updateLoop ρ σ nt s).accumulator < step ∧
      (0 < n → 0 ≤ (updateLoop ρ σ nt s).accumulator) := by
  induction s using updateLoop.induct ρ σ nt with
  | case1 s h ih =>
    obtain ⟨n, h1, h2, h3, h4⟩ := ih
    have b1 := updateBody_accumulator ρ σ nt s
    have b2 := updateBody_stepCalls ρ σ nt s
    rw [updateLoop, dif_pos h]
    refine ⟨n + 1, ?_, ?_, h3, ?_⟩
    · rw [h1, b1]; push_cast; ring
    · rw [h2, b2]
      simp [List.replicate_succ]
    · intro _
      rcases Nat.eq_zero_or_pos n with hn | hn
      · subst hn
        rw [h1, b1]
        simpa using h
      · exact h4 hn
  | case2 s h =>
    rw [updateLoop, dif_neg h]
    exact ⟨0, by simp, by simp, lt_of_not_le h, by simp⟩

theorem updateLoop_gravity (ρ : ℕ → ℚ) (σ : ℕ → List B2Body → List B2Body)
    (nt : ℚ) (s : AppState) :
    (updateLoop ρ σ nt s).world.gravity = s.world.gravity := by
  induction s using updateLoop.induct ρ σ nt with
  | case1 s h ih =>
    rw [updateLoop, dif_pos h, ih, updateBody_gravity]
  | case2 s h =>
    rw [updateLoop, dif_neg h]

theorem updateLoop_shapes (ρ : ℕ → ℚ) (σ : ℕ → List B2Body → List B2Body)
    (nt : ℚ) (s : AppState) :
    ∃ new, (updateLoop ρ σ nt s).shapes = s.shapes ++ new ∧
      ∀ sh ∈ new, sh.dynamic = true ∧ renderableShape sh := by
  induction s using updateLoop.induct ρ σ nt with
  | case1 s h ih =>
    obtain ⟨new2, hl, hall2⟩ := ih
    obtain ⟨new1, hb, hall1⟩ := updateBody_shapes ρ σ nt s
    rw [updateLoop, dif_pos h]
    refine ⟨new1 ++ new2, ?_, ?_⟩
    · rw [hl, hb, List.append_assoc]
    · intro sh hsh
      rcases List.mem_append.mp hsh with h1 | h2
      exacts [hall1 sh h1, hall2 sh h2]
  | case2 s h =>
    rw [updateLoop, dif_neg h]
    exact ⟨[], by simp, by simp⟩

theorem updateLoop_clear (ρ : ℕ → ℚ) (σ : ℕ → List B2Body → List B2Body)
    (nt : ℚ) (s : AppState) :
    (0 ≤ s.clearR ∧ s.clearR ≤ 1) → (0 ≤ s.clearG ∧ s.clearG ≤ 1) →
    (0 ≤ s.clearB ∧ s.clearB ≤ 1) →
    (0 ≤ (updateLoop ρ σ nt s).clearR ∧ (updateLoop ρ σ nt s).clearR ≤ 1) ∧
    (0 ≤ (updateLoop ρ σ nt s).clearG ∧ (updateLoop ρ σ nt s).clearG ≤ 1) ∧
    (0 ≤ (updateLoop ρ σ nt s).clearB ∧ (updateLoop ρ σ nt s).clearB ≤ 1) := by
  induction s using updateLoop.induct ρ σ nt with
  | case1 s h ih =>
    intro _ _ _
    rw [updateLoop, dif_pos h]
    exact ih (updateBody_clearR ρ σ nt s) (updateBody_clearG ρ σ nt s)
      (updateBody_clearB ρ σ nt s)
  | case2 s h =>
    intro hR hG hB
    rw [updateLoop, dif_neg h]
    exact ⟨hR, hG, hB⟩

theorem update_char (ρ : ℕ → ℚ) (σ : ℕ → List B2Body → List B2Body)
    (t : ℤ) (s : AppState) :
    ∃ n : ℕ,
      (update ρ σ t s).accumulator =
        s.accumulator + min ((t : ℚ) / 1000 - s.currentTime) (1/4) - n * step ∧
      (update ρ σ t s).world.stepCalls =
        s.world.stepCalls ++ List.replicate n (step, 8, 3) ∧
      (update ρ σ t s).accumulator < step ∧
      (0 < n → 0 ≤ (update ρ σ t s).accumulator) := by
  obtain ⟨n, h1, h2, h3, h4⟩ := updateLoop_spec ρ σ ((t : ℚ) / 1000)
    { s with
        currentTime := (t : ℚ) / 1000,
        accumulator := s.accumulator + min ((t : ℚ) / 1000 - s.currentTime) (1/4) }
  exact ⟨n, h1, h2, h3, h4⟩

theorem update_gravity (ρ : ℕ → ℚ) (σ : ℕ → List B2Body → List B2Body)
    (t : ℤ) (s : AppState) :
    (update ρ σ t s).world.gravity = s.world.gravity := by
  simp only [update]
  rw [updateLoop_gravity]

theorem drawShapesFold_spec (l : List Shape) (s : AppState) :
    drawShapesFold l s =
      { s with glLog := s.glLog ++ l.map (shapeDrawCmd s.world) } := by
  induction l generalizing s with
  | nil => simp [drawShapesFold]
  | cons hd tl ih =>
    show drawShapesFold tl
        { s with glLog := s.glLog ++ [shapeDrawCmd s.world hd] } = _
    rw [ih]
    simp

theorem draw_spec (s : AppState) :
    draw s =
      { s with glLog := s.glLog ++
          (GlCmd.clear (GL_DEPTH_BUFFER_BIT ||| GL_COLOR_BUFFER_BIT) ::
            GlCmd.useProgram s.program ::
            (s.shapes.map (shapeDrawCmd s.world) ++ [GlCmd.useProgram 0])) } := by
  simp only [draw]
  rw [drawShapesFold_spec]
  simp

theorem destroyFold_gravity (l : List Shape) (w : B2World) :
    (l.foldl (fun w sh => w.destroyBody sh.bodyId) w).gravity = w.gravity := by
  induction l generalizing w with
  | nil => rfl
  | cons hd tl ih => rw [List.foldl_cons, ih]; rfl

theorem destroyFold_nextId (l : List Shape) (w : B2World) :
    (l.foldl (fun w sh => w.destroyBody sh.bodyId) w).nextId = w.nextId := by
  induction l generalizing w with
  | nil => rfl
  | cons hd tl ih => rw [List.foldl_cons, ih]; rfl

theorem destroyFold_mem (l : List Shape) (w : B2World) (b : B2Body)
    (hb : b ∈ (l.foldl (fun w sh => w.destroyBody sh.bodyId) w).bodies) :
    b ∈ w.bodies := by
  induction l generalizing w with
  | nil => exact hb
  | cons hd tl ih =>
    rw [List.foldl_cons] at hb
    have h1 := ih _ hb
    simp only [B2World.destroyBody, List.mem_filter] at h1
    exact h1.1

theorem destroyFold_removes (l : List Shape) (sh : Shape) (hsh : sh ∈ l)
    (w : B2World) (b : B2Body)
    (hb : b ∈ (l.foldl (fun w sh => w.destroyBody sh.bodyId) w).bodies) :
    b.id ≠ sh.bodyId := by
  induction l generalizing w with
  | nil => cases hsh
  | cons hd tl ih =>
    rw [List.foldl_cons] at hb
    rcases List.mem_cons.mp hsh with heq | hmem
    · subst heq
      have hb' := destroyFold_mem tl _ b hb
      simp only [B2World.destroyBody, List.mem_filter] at hb'
      simpa using hb'.2
    · exact ih hmem _ hb

theorem initGraphics_gravity (o : GlOracle) (width height : ℤ) (s : AppState) :
    (initGraphics o width height s).world.gravity = s.world.gravity := by
  simp only [initGraphics, createShapes, pushRectangle, mkRectangle,
    B2World.createBody, clearShapes]
  split <;> simp [destroyFold_gravity]

theorem initGraphics_shapes_renderable (o : GlOracle) (width height : ℤ)
    (s : AppState) :
    ∀ sh ∈ (initGraphics o width height s).shapes, renderableShape sh := by
  simp only [initGraphics, createShapes, pushRectangle, mkRectangle,
    B2World.createBody, clearShapes]
  split
  · simp
  · intro sh hsh
    simp only [List.nil_append, List.mem_append, List.mem_singleton,
      List.mem_cons, List.not_mem_nil, or_false] at hsh
    rcases hsh with ((h | h) | h) | h <;> subst h <;> exact Or.inr ⟨rfl, rfl⟩

/-! ## Claim theorems -/

/-- C3: the coordinate-scaling conversions are mutually inverse, for scalars
and for 2-component vectors, with the fixed scale constant 16. -/
theorem scaling_conversions_inverse (f x y : ℚ) :
    box2DToWorld (worldToBox2D f) = f ∧
    worldToBox2D (box2DToWorld f) = f ∧
    box2DToWorldvec (worldToBox2Dxy x y) = (x, y) ∧
    worldToBox2Dvec (box2DToWorldxy x y) = (x, y) ∧
    Scale = 16 := by
  unfold box2DToWorld worldToBox2D box2DToWorldvec worldToBox2Dxy
    worldToBox2Dvec box2DToWorldxy Scale
  norm_num

/-- C8: `touch(x, y)` only writes a log message; the shape list, the physics
world, and all timing and color state are unchanged. -/
theorem touch_only_logs (x y : ℚ) (s : AppState) :
    touchBridge x y s = { s with log := s.log ++ [LogEntry.touchMsg x y] } ∧
    (touchBridge x y s).shapes = s.shapes ∧
    (touchBridge x y s).world = s.world ∧
    (touchBridge x y s).currentTime = s.currentTime ∧
    (touchBridge x y s).accumulator = s.accumulator ∧
    (touchBridge x y s).spawnTime = s.spawnTime ∧
    (touchBridge x y s).clearR = s.clearR ∧
    (touchBridge x y s).clearG = s.clearG ∧
    (touchBridge x y s).clearB = s.clearB ∧
    (touchBridge x y s).glLog = s.glLog ∧
    (touchBridge x y s).rngIdx = s.rngIdx := by
  exact ⟨rfl, rfl, rfl, rfl, rfl, rfl, rfl, rfl, rfl, rfl, rfl⟩

/-- C1: `update(time)` advances the physics world only by `world.Step` calls
with the constant timestep 1/60 (8 velocity iterations, 3 position
iterations), one call per whole step accumulated (the step count `n`
satisfies `accumulator' = accumulator + deltaTime - n/60` and, when any
step ran, `accumulator' ≥ 0`), and the residual accumulator on return is
strictly less than one step. -/
theorem update_fixed_timestep (ρ : ℕ → ℚ) (σ : ℕ → List B2Body → List B2Body)
    (time : ℤ) (s : AppState) :
    ∃ n : ℕ,
      (update ρ σ time s).world.stepCalls =
        s.world.stepCalls ++ List.replicate n ((1 : ℚ) / 60, 8, 3) ∧
      (update ρ σ time s).accumulator =
        s.accumulator + min ((time : ℚ) / 1000 - s.currentTime) (1/4)
          - n * ((1 : ℚ) / 60) ∧
      (update ρ σ time s).accumulator < (1 : ℚ) / 60 ∧
      (0 < n → 0 ≤ (update ρ σ time s).accumulator) := by
  obtain ⟨n, h1, h2, h3, h4⟩ := update_char ρ σ time s
  exact ⟨n, h2, h1, h3, h4⟩

/-- C9: because the frame delta is clamped to 0.25 s, a call to `update`
whose entering accumulator is below one step performs at most 16 physics
sub-steps. -/
theorem update_at_most_sixteen_substeps (ρ : ℕ → ℚ)
    (σ : ℕ → List B2Body → List B2Body) (time : ℤ) (s : AppState)
    (hacc : s.accumulator < 1/60) :
    (update ρ σ time s).world.stepCalls.length ≤
      s.world.stepCalls.length + 16 := by
  obtain ⟨n, h1, h2, h3, h4⟩ := update_char ρ σ time s
  rw [h2, List.length_append, List.length_replicate]
  have hn : n ≤ 16 := by
    by_contra hgt
    push_neg at hgt
    have hnpos : 0 < n := by omega
    have hge : (17 : ℚ) ≤ (n : ℚ) := by exact_mod_cast hgt
    have hmin : min ((time : ℚ) / 1000 - s.currentTime) (1/4) ≤ 1/4 :=
      min_le_right _ _
    have h0 := h4 hnpos
    rw [h1] at h0
    simp only [step] at h0
    nlinarith
  omega

/-- C10: the clear-color components stay within `[0, 1]` across every call
to `update`, for every sequence of random perturbations. -/
theorem update_clear_color_in_range (ρ : ℕ → ℚ)
    (σ : ℕ → List B2Body → List B2Body) (time : ℤ) (s : AppState)
    (hR : 0 ≤ s.clearR ∧ s.clearR ≤ 1)
    (hG : 0 ≤ s.clearG ∧ s.clearG ≤ 1)
    (hB : 0 ≤ s.clearB ∧ s.clearB ≤ 1) :
    (0 ≤ (update ρ σ time s).clearR ∧ (update ρ σ time s).clearR ≤ 1) ∧
    (0 ≤ (update ρ σ time s).clearG ∧ (update ρ σ time s).clearG ≤ 1) ∧
    (0 ≤ (update ρ σ time s).clearB ∧ (update ρ σ time s).clearB ≤ 1) := by
  simp only [update]
  exact updateLoop_clear ρ σ _ _ hR hG hB

/-- C10 witness: at the program's initial state (clear color 0.2, 0.3, 0.5)
the hypotheses hold and the theorem applies. -/
theorem update_clear_color_in_range_witness :
    ((0 ≤ initialAppState.clearR ∧ initialAppState.clearR ≤ 1) ∧
     (0 ≤ initialAppState.clearG ∧ initialAppState.clearG ≤ 1) ∧
     (0 ≤ initialAppState.clearB ∧ initialAppState.clearB ≤ 1)) ∧
    ((0 ≤ (update (fun _ => 0) (fun _ b => b) 100 initialAppState).clearR ∧
        (update (fun _ => 0) (fun _ b => b) 100 initialAppState).clearR ≤ 1) ∧
     (0 ≤ (update (fun _ => 0) (fun _ b => b) 100 initialAppState).clearG ∧
        (update (fun _ => 0) (fun _ b => b) 100 initialAppState).clearG ≤ 1) ∧
     (0 ≤ (update (fun _ => 0) (fun _ b => b) 100 initialAppState).clearB ∧
        (update (fun _ => 0) (fun _ b => b) 100 initialAppState).clearB ≤ 1)) :=
  ⟨⟨⟨by norm_num [initialAppState], by norm_num [initialAppState]⟩,
    ⟨by norm_num [initialAppState], by norm_num [initialAppState]⟩,
    ⟨by norm_num [initialAppState], by norm_num [initialAppState]⟩⟩,
   update_clear_color_in_range (fun _ => 0) (fun _ b => b) 100 initialAppState
     ⟨by norm_num [initialAppState], by norm_num [initialAppState]⟩
     ⟨by norm_num [initialAppState], by norm_num [initialAppState]⟩
     ⟨by norm_num [initialAppState], by norm_num [initialAppState]⟩⟩

/-- C9 witness: from the initial state (accumulator 0) the hypothesis holds
and the theorem applies. -/
theorem update_at_most_sixteen_substeps_witness :
    initialAppState.accumulator < 1/60 ∧
    (update (fun _ => 0) (fun _ b => b) 100 initialAppState).world.stepCalls.length ≤
      initialAppState.world.stepCalls.length + 16 :=
  ⟨by norm_num [initialAppState],
   update_at_most_sixteen_substeps (fun _ => 0) (fun _ b => b) 100
     initialAppState (by norm_num [initialAppState])⟩

/-- C5: every shape appended to the list by `update` is a dynamic body that
is a 3-vertex triangle or a 6-vertex rectangle; the shapes `initGraphics`
creates are also of these two kinds, and `touch` and `draw` never add a
shape — so every element ever held in the list is a colored triangle or
rectangle. -/
theorem shapes_always_triangles_or_rectangles (ρ : ℕ → ℚ)
    (σ : ℕ → List B2Body → List B2Body) (time : ℤ) (o : GlOracle)
    (width height : ℤ) (x y : ℚ) (s : AppState) :
    (∃ new, (update ρ σ time s).shapes = s.shapes ++ new ∧
        ∀ sh ∈ new, sh.dynamic = true ∧ renderableShape sh) ∧
    (∀ sh ∈ (initGraphics o width height s).shapes, renderableShape sh) ∧
    (touch x y s).shapes = s.shapes ∧
    (draw s).shapes = s.shapes := by
  refine ⟨?_, initGraphics_shapes_renderable o width height s, rfl, ?_⟩
  · simp only [update]
    obtain ⟨new, h1, h2⟩ := updateLoop_shapes ρ σ ((time : ℚ) / 1000)
      { s with
          currentTime := (time : ℚ) / 1000,
          accumulator := s.accumulator +
            min ((time : ℚ) / 1000 - s.currentTime) (1/4) }
    exact ⟨new, h1, h2⟩
  · rw [draw_spec]

/-- C6: the world's gravity is the constant `(0, worldToBox2D 128) = (0, 8)`
fixed at construction, and none of the native-bridge operations (init,
step, touch) changes it. -/
theorem world_gravity_constant (o : GlOracle) (width height time : ℤ)
    (ρ : ℕ → ℚ) (σ : ℕ → List B2Body → List B2Body) (x y : ℚ)
    (s : AppState) :
    initialAppState.world.gravity = (0, worldToBox2D 128) ∧
    worldToBox2D 128 = 8 ∧
    (initBridge o width height s).world.gravity = s.world.gravity ∧
    (stepBridge ρ σ time s).world.gravity = s.world.gravity ∧
    (touchBridge x y s).world.gravity = s.world.gravity := by
  refine ⟨rfl, by norm_num [worldToBox2D, Scale],
    initGraphics_gravity o width height s, ?_, rfl⟩
  show (draw (update ρ σ (jintOfJlong time) s)).world.gravity = s.world.gravity
  rw [draw_spec]
  exact update_gravity ρ σ _ s

/-- C7: the `step(time)` bridge first advances the simulation with `update`
and then renders: it clears the depth and color buffers and draws every
shape in the post-update list exactly once, in list order. -/
theorem step_advances_then_renders (ρ : ℕ → ℚ)
    (σ : ℕ → List B2Body → List B2Body) (time : ℤ) (s : AppState) :
    stepBridge ρ σ time s = draw (update ρ σ (jintOfJlong time) s) ∧
    (stepBridge ρ σ time s).glLog =
      (update ρ σ (jintOfJlong time) s).glLog ++
        (GlCmd.clear (GL_DEPTH_BUFFER_BIT ||| GL_COLOR_BUFFER_BIT) ::
          GlCmd.useProgram (update ρ σ (jintOfJlong time) s).program ::
          ((update ρ σ (jintOfJlong time) s).shapes.map
              (shapeDrawCmd (update ρ σ (jintOfJlong time) s).world) ++
            [GlCmd.useProgram 0])) ∧
    (stepBridge ρ σ time s).shapes = (update ρ σ (jintOfJlong time) s).shapes ∧
    (stepBridge ρ σ time s).world = (update ρ σ (jintOfJlong time) s).world := by
  refine ⟨rfl, ?_, ?_, ?_⟩ <;> simp only [stepBridge] <;> rw [draw_spec]

/-- C4: when `createProgram` returns 0, `initGraphics` returns early: no GL
command (viewport, clear color, blending) is issued, the projection is
left unchanged, `createShapes` is not called (`tWidth`/`tHeight`
unchanged) and the shape list, cleared at the start of the call, stays
empty. -/
theorem init_early_return_on_failure (o : GlOracle) (width height : ℤ)
    (s : AppState) (hprog : createProgram o = 0) :
    (initGraphics o width height s).shapes = [] ∧
    (initGraphics o width height s).program = 0 ∧
    (initGraphics o width height s).glLog = s.glLog ∧
    (initGraphics o width height s).projectionLeft = s.projectionLeft ∧
    (initGraphics o width height s).projectionRight = s.projectionRight ∧
    (initGraphics o width height s).projectionBottom = s.projectionBottom ∧
    (initGraphics o width height s).projectionTop = s.projectionTop ∧
    (initGraphics o width height s).tWidth = s.tWidth ∧
    (initGraphics o width height s).tHeight = s.tHeight := by
  simp only [initGraphics, if_pos hprog, clearShapes]
  simp [hprog]

/-- C4 witness: an oracle whose vertex shader fails to compile (nonempty
info log) makes `createProgram` return 0, and the theorem applies at a
concrete state. -/
theorem init_early_return_on_failure_witness :
    createProgram ⟨1, false, 5, 1, true, 0, 1, true⟩ = 0 ∧
    ((initGraphics ⟨1, false, 5, 1, true, 0, 1, true⟩ 640 480 initialAppState).shapes = [] ∧
     (initGraphics ⟨1, false, 5, 1, true, 0, 1, true⟩ 640 480 initialAppState).program = 0 ∧
     (initGraphics ⟨1, false, 5, 1, true, 0, 1, true⟩ 640 480 initialAppState).glLog = initialAppState.glLog ∧
     (initGraphics ⟨1, false, 5, 1, true, 0, 1, true⟩ 640 480 initialAppState).projectionLeft = initialAppState.projectionLeft ∧
     (initGraphics ⟨1, false, 5, 1, true, 0, 1, true⟩ 640 480 initialAppState).projectionRight = initialAppState.projectionRight ∧
     (initGraphics ⟨1, false, 5, 1, true, 0, 1, true⟩ 640 480 initialAppState).projectionBottom = initialAppState.projectionBottom ∧
     (initGraphics ⟨1, false, 5, 1, true, 0, 1, true⟩ 640 480 initialAppState).projectionTop = initialAppState.projectionTop ∧
     (initGraphics ⟨1, false, 5, 1, true, 0, 1, true⟩ 640 480 initialAppState).tWidth = initialAppState.tWidth ∧
     (initGraphics ⟨1, false, 5, 1, true, 0, 1, true⟩ 640 480 initialAppState).tHeight = initialAppState.tHeight) :=
  ⟨by decide,
   init_early_return_on_failure ⟨1, false, 5, 1, true, 0, 1, true⟩ 640 480
     initialAppState (by decide)⟩

/-- C2: after `initGraphics` in which program creation succeeds, the shape
list is exactly the four border rectangles (top, bottom, left, right),
all static; and every shape that existed before the call has had its body
destroyed (it is no longer found in the world). -/
theorem init_creates_four_static_borders (o : GlOracle) (width height : ℤ)
    (s : AppState) (hprog : createProgram o ≠ 0) :
    (initGraphics o width height s).shapes.map
        (fun sh => (sh.kind, sh.dynamic, sh.x, sh.y, sh.width, sh.height)) =
      [(ShapeKind.rectangle, false, (width : ℚ) / 2,
          (tWidthOf width height : ℚ) / 8, (width : ℚ),
          (tWidthOf width height : ℚ) / 4),
       (ShapeKind.rectangle, false, (width : ℚ) / 2,
          (height : ℚ) - (tWidthOf width height : ℚ) / 8, (width : ℚ),
          (tWidthOf width height : ℚ) / 4),
       (ShapeKind.rectangle, false, (tWidthOf width height : ℚ) / 8,
          (height : ℚ) / 2, (tWidthOf width height : ℚ) / 4, (height : ℚ)),
       (ShapeKind.rectangle, false,
          (width : ℚ) - (tWidthOf width height : ℚ) / 8, (height : ℚ) / 2,
          (tWidthOf width height : ℚ) / 4, (height : ℚ))] ∧
    ∀ sh ∈ s.shapes, sh.bodyId < s.world.nextId →
      (initGraphics o width height s).world.findBody sh.bodyId = none := by
  constructor
  · simp only [initGraphics, if_neg hprog, createShapes, pushRectangle,
      mkRectangle, B2World.createBody, clearShapes]
    simp
  · intro sh hsh hid
    simp only [initGraphics, if_neg hprog, createShapes, pushRectangle,
      mkRectangle, B2World.createBody, clearShapes, B2World.findBody]
    rw [List.find?_eq_none]
    intro b hb
    simp only [decide_eq_true_eq]
    intro heq
    simp only [List.mem_append, List.mem_singleton] at hb
    have hnext := destroyFold_nextId s.shapes s.world
    rcases hb with (((hb | hb) | hb) | hb) | hb
    · exact destroyFold_removes s.shapes sh hsh s.world b hb heq
    all_goals subst hb
    all_goals simp only at heq
    all_goals omega

/-- C2 witness: a fully successful GL oracle on a 640×480 screen, starting
from the initial (empty) state. -/
theorem init_creates_four_static_borders_witness :
    createProgram ⟨1, true, 0, 1, true, 0, 1, true⟩ ≠ 0 ∧
    ((initGraphics ⟨1, true, 0, 1, true, 0, 1, true⟩ 640 480 initialAppState).shapes.map
        (fun sh => (sh.kind, sh.dynamic, sh.x, sh.y, sh.width, sh.height)) =
      [(ShapeKind.rectangle, false, (640 : ℚ) / 2,
          (tWidthOf 640 480 : ℚ) / 8, (640 : ℚ), (tWidthOf 640 480 : ℚ) / 4),
       (ShapeKind.rectangle, false, (640 : ℚ) / 2,
          (480 : ℚ) - (tWidthOf 640 480 : ℚ) / 8, (640 : ℚ),
          (tWidthOf 640 480 : ℚ) / 4),
       (ShapeKind.rectangle, false, (tWidthOf 640 480 : ℚ) / 8,
          (480 : ℚ) / 2, (tWidthOf 640 480 : ℚ) / 4, (480 : ℚ)),
       (ShapeKind.rectangle, false, (640 : ℚ) - (tWidthOf 640 480 : ℚ) / 8,
          (480 : ℚ) / 2, (tWidthOf 640 480 : ℚ) / 4, (480 : ℚ))] ∧
     ∀ sh ∈ initialAppState.shapes, sh.bodyId < initialAppState.world.nextId →
       (initGraphics ⟨1, true, 0, 1, true, 0, 1, true⟩ 640 480 initialAppState).world.findBody
           sh.bodyId = none) :=
  ⟨by decide,
   init_creates_four_static_borders ⟨1, true, 0, 1, true, 0, 1, true⟩ 640 480
     initialAppState (by decide)⟩
